import Mathlib

/-!
Verification development for the Audio2Face-3D real-time inference streaming
server (`source/inference-server/`).  The definitions below are shallow
embeddings of the C++ source: the WebSocket frame codec and handshake key
derivation (`websocket_server.cpp`), the session staging / flush state machine
and the PushAudio validator (`inference_sessions.cpp`), and the StartSession
validation plus dispatcher logic (`main.cpp`).  Machine integers are embedded
as `Nat`/`Int`; bit masks and shifts on byte values are rendered with `/`, `%`
and `*` by powers of two, which agree with the C bit operations on the
`uint8_t`/`uint64_t` values the source manipulates.
-/

/-! ## WebSocket frame codec (`websocket_server.cpp`, `ReadFrame`/`SendFrame`) -/

/-- Wire frame as decoded by `ReadFrame`: FIN flag, opcode nibble, payload
bytes.  Opcode is kept as the raw low nibble of the first header byte
(Text = 1, Binary = 2, Close = 8, Ping = 9, Pong = 10). -/
structure WsFrame where
  fin : Bool
  opcode : Nat
  payload : List Nat
  deriving Repr, DecidableEq

/-- Embedding of `Socket::RecvAll(buf, n)`: on a byte stream, reading exactly
`n` bytes succeeds iff the stream holds at least `n` bytes, returning the bytes
read and the remaining stream. -/
def recvAll (input : List Nat) (n : Nat) : Option (List Nat × List Nat) :=
  if n ≤ input.length then some (input.take n, input.drop n) else none

/-- Embedding of `ReadFrame` (websocket_server.cpp:335-393).  Returns the
decoded frame (or `none` on failure) together with the number of bytes
consumed from the stream by successful `RecvAll` calls, so that "fails before
reading the body" is expressible.  Header fields: `fin` is bit 7 of byte 0,
`opcode` the low nibble of byte 0, `masked` bit 7 of byte 1, `len7` the low
7 bits of byte 1; `len7 = 126` reads a 2-byte big-endian length, `len7 = 127`
an 8-byte big-endian length; lengths above `maxPayloadBytes` fail before the
mask key or payload is read; masked payloads are XORed with `mask[i mod 4]`. -/
def readFrame (input : List Nat) (maxPayloadBytes : Nat) : Option WsFrame × Nat :=
  match recvAll input 2 with
  | none => (none, 0)
  | some (header, r1) =>
    let b0 := header.getD 0 0
    let b1 := header.getD 1 0
    let fin := b0 / 128 % 2 == 1
    let opcode := b0 % 16
    let masked := b1 / 128 % 2 == 1
    let len7 := b1 % 128
    if !fin then (none, 2)
    else
      let extRead : Option (Nat × List Nat × Nat) :=
        if len7 == 126 then
          match recvAll r1 2 with
          | none => none
          | some (ext, r2) => some (256 * ext.getD 0 0 + ext.getD 1 0, r2, 4)
        else if len7 == 127 then
          match recvAll r1 8 with
          | none => none
          | some (ext, r2) => some (ext.foldl (fun acc b => 256 * acc + b) 0, r2, 10)
        else some (len7, r1, 2)
      match extRead with
      | none => (none, 2)
      | some (payloadLen, r2, consumed) =>
        if maxPayloadBytes < payloadLen then (none, consumed)
        else
          let maskRead : Option (List Nat × List Nat × Nat) :=
            if masked then
              match recvAll r2 4 with
              | none => none
              | some (mk, r3) => some (mk, r3, consumed + 4)
            else some ([0, 0, 0, 0], r2, consumed)
          match maskRead with
          | none => (none, consumed)
          | some (maskKey, r3, consumed2) =>
            match recvAll r3 payloadLen with
            | none => (none, consumed2)
            | some (payloadRaw, _) =>
              let payload :=
                if masked then payloadRaw.mapIdx (fun i b => b ^^^ maskKey.getD (i % 4) 0)
                else payloadRaw
              (some { fin := true, opcode := opcode, payload := payload }, consumed2 + payloadLen)

/-- Embedding of `SendFrame` (websocket_server.cpp:395-420): the byte string
written to the socket.  First byte is `0x80 | (opcode & 0x0f)` (always FIN,
never masked); the payload length is encoded in the 7 / 7+16 / 7+64-bit
scheme; the payload follows. -/
def sendFrame (opcode : Nat) (payload : List Nat) : List Nat :=
  let len := payload.length
  let lenBytes :=
    if len ≤ 125 then [len]
    else if len ≤ 65535 then [126, len / 256 % 256, len % 256]
    else 127 :: (List.range 8).map (fun j => len / 2 ^ ((7 - j) * 8) % 256)
  (128 + opcode % 16) :: (lenBytes ++ payload)

/-! ## SHA-1, Base64 and the handshake accept key (`websocket_server.cpp`) -/

/-- Left-rotation of a 32-bit word, as in the `leftRotate` lambda of `Sha1`. -/
def rotl32 (v n : Nat) : Nat := ((v <<< n) % 4294967296) ||| (v >>> (32 - n))

/-- SHA-1 padding (websocket_server.cpp:42-50): append `0x80`, zero-fill until
the length is 56 mod 64, then the original bit length as 8 big-endian bytes. -/
def sha1Pad (input : List Nat) : List Nat :=
  let bitLen := input.length * 8 % 18446744073709551616
  input ++ [128] ++ List.replicate ((56 + 64 - (input.length + 1) % 64) % 64) 0
    ++ (List.range 8).map (fun i => bitLen >>> ((7 - i) * 8) &&& 255)

/-- One SHA-1 chunk step (websocket_server.cpp:59-107): expand the 16 words to
80, run the 80 rounds, add into the running state. -/
def sha1Chunk (h : Nat × Nat × Nat × Nat × Nat) (chunk : List Nat) :
    Nat × Nat × Nat × Nat × Nat :=
  let (h0, h1, h2, h3, h4) := h
  let w16 := (List.range 16).map (fun i =>
    (chunk.getD (4 * i) 0 <<< 24) ||| (chunk.getD (4 * i + 1) 0 <<< 16) |||
      (chunk.getD (4 * i + 2) 0 <<< 8) ||| chunk.getD (4 * i + 3) 0)
  let w := (List.range 64).foldl (fun w j =>
    w ++ [rotl32 ((w.getD (j + 13) 0) ^^^ (w.getD (j + 8) 0) ^^^
      (w.getD (j + 2) 0) ^^^ (w.getD j 0)) 1]) w16
  let st := (List.range 80).foldl (fun (st : Nat × Nat × Nat × Nat × Nat) i =>
    let (a, b, c, d, e) := st
    let f :=
      if i < 20 then (b &&& c) ||| ((b ^^^ 4294967295) &&& d)
      else if i < 40 then b ^^^ c ^^^ d
      else if i < 60 then (b &&& c) ||| (b &&& d) ||| (c &&& d)
      else b ^^^ c ^^^ d
    let k :=
      if i < 20 then 1518500249
      else if i < 40 then 1859775393
      else if i < 60 then 2400959708
      else 3395469782
    let temp := (rotl32 a 5 + f + e + k + w.getD i 0) % 4294967296
    (temp, a, rotl32 b 30, c, d)) (h0, h1, h2, h3, h4)
  let (a, b, c, d, e) := st
  ((h0 + a) % 4294967296, (h1 + b) % 4294967296, (h2 + c) % 4294967296,
    (h3 + d) % 4294967296, (h4 + e) % 4294967296)

/-- Embedding of `Sha1` (websocket_server.cpp:37-122): bytes in, the 20-byte
digest out (big-endian serialization of the five state words). -/
def sha1 (input : List Nat) : List Nat :=
  let padded := sha1Pad input
  let (h0, h1, h2, h3, h4) := (List.range (padded.length / 64)).foldl
    (fun h c => sha1Chunk h ((padded.drop (64 * c)).take 64))
    (1732584193, 4023233417, 2562383102, 271733878, 3285377520)
  [h0, h1, h2, h3, h4].foldl
    (fun acc h => acc ++ (List.range 4).map (fun j => h >>> ((3 - j) * 8) &&& 255)) []

/-- Base64 alphabet used by `Base64Encode`. -/
def base64Alphabet : List Char :=
  "ABCDEFGHIJKLMNOPQRSTUVWXYZabcdefghijklmnopqrstuvwxyz0123456789+/".data

/-- Embedding of `Base64Encode` (websocket_server.cpp:124-140). -/
def base64Encode (data : List Nat) : String :=
  let len := data.length
  String.mk ((List.range ((len + 2) / 3)).foldl (fun out j =>
    let i := 3 * j
    let octetA := data.getD i 0
    let octetB := data.getD (i + 1) 0
    let octetC := data.getD (i + 2) 0
    let triple := (octetA <<< 16) ||| (octetB <<< 8) ||| octetC
    out ++ [base64Alphabet.getD ((triple >>> 18) &&& 63) 'A',
      base64Alphabet.getD ((triple >>> 12) &&& 63) 'A',
      if i + 1 < len then base64Alphabet.getD ((triple >>> 6) &&& 63) 'A' else '=',
      if i + 2 < len then base64Alphabet.getD (triple &&& 63) 'A' else '=']) [])

/-- Byte view of an ASCII string, as the C++ code sees `std::string_view`. -/
def strBytes (s : String) : List Nat := s.data.map Char.toNat

/-- The RFC 6455 GUID appended to the client key (websocket_server.cpp:143). -/
def wsGuid : String := "258EAFA5-E914-47DA-95CA-C5AB0DC85B11"

/-- Embedding of `WebSocketAcceptKey` (websocket_server.cpp:142-150). -/
def webSocketAcceptKey (secKey : String) : String :=
  base64Encode (sha1 (strBytes (secKey ++ wsGuid)))

/-! ## Session staging and flush state machine (`inference_sessions.cpp`) -/

/-- Upper bound on the pending-frame queue (inference_sessions.h:109). -/
def kMaxStagedFrames : Nat := 256

/-- Flush threshold used by the PushAudio drive loop (inference_sessions.h:110). -/
def kFlushThresholdFrames : Nat := 32

/-- Embedding of `PendingFrame` (inference_sessions.h:68-73), extended with a
ghost `stream` field recording the `cudaStream` passed when the frame was
staged (the source stores only the session-level `_lastCudaStream`). -/
structure StagedFrame where
  frameIndex : Nat
  tsCurrent : Int
  tsNext : Int
  slotIndex : Nat
  stream : Option Nat
  deriving Repr, DecidableEq

/-- Mutable session state relevant to staging and flushing: `attached` models
`_wsSocket != nullptr`, `lastCudaStream` models `_lastCudaStream` (`none` is
the null stream).  `sentFrames` and `sentErrors` are ghost logs of the binary
frames and Error messages written to the current connection's socket. -/
structure SessionState where
  attached : Bool
  nextFrameIndex : Nat
  pending : List StagedFrame
  lastCudaStream : Option Nat
  sentFrames : List StagedFrame
  sentErrors : List String
  deriving Repr, DecidableEq

/-- Session state right after `SessionPool::Init` (pool construction runs
`Init`, which ends in `ResetForReuse`; no socket attached). -/
def initialSession : SessionState :=
  { attached := false, nextFrameIndex := 0, pending := [], lastCudaStream := none,
    sentFrames := [], sentErrors := [] }

/-- Embedding of `SendErrorLocked` (inference_sessions.cpp:381-390): the Error
text frame is only written when a socket is attached. -/
def sendErrorLocked (st : SessionState) (msg : String) : SessionState :=
  if st.attached then { st with sentErrors := st.sentErrors ++ [msg] } else st

/-- Embedding of `SessionContext::Start` (inference_sessions.cpp:141-148):
store the socket, clear the pending queue, reset `nextFrameIndex` to 0.
The ghost logs start empty for the new connection. -/
def sessionStart (st : SessionState) : SessionState :=
  { st with
      attached := true
      pending := []
      nextFrameIndex := 0
      sentFrames := []
      sentErrors := [] }

/-- Embedding of `SessionContext::Stop` (inference_sessions.cpp:150-153). -/
def sessionStop (st : SessionState) : SessionState := { st with attached := false }

/-- Embedding of the state effects of `ResetForReuse`
(inference_sessions.cpp:155-183): clear pending, reset the frame counter and
the remembered CUDA stream (engine resets are external and modelled as
succeeding). -/
def resetForReuse (st : SessionState) : SessionState :=
  { st with
      pending := []
      nextFrameIndex := 0
      lastCudaStream := none }

/-- Arguments of one `OnDeviceResults` engine callback
(`IBlendshapeExecutor::DeviceResults`): the size of the device weight view,
the CUDA stream (`none` = null), and the two timestamps. -/
structure DeviceResults where
  weightsSize : Nat
  cudaStream : Option Nat
  tsCurrent : Int
  tsNext : Int
  deriving Repr, DecidableEq

/-- Embedding of `SessionContext::OnDeviceResults`
(inference_sessions.cpp:299-331) for a session with `wc` weights.  `copyFail`
models a failing `CopyDeviceToHost`.  Returns the new state and the callback's
boolean result.  On success the next slot `pending.length` is used,
`_lastCudaStream` is updated and a frame numbered `nextFrameIndex` is
appended. -/
def onDeviceResults (wc : Nat) (st : SessionState) (r : DeviceResults)
    (copyFail : Bool) : SessionState × Bool :=
  if !st.attached then (st, false)
  else if r.weightsSize == 0 then (st, true)
  else if r.weightsSize != wc then
    (sendErrorLocked st "Unexpected weight vector size from executor", false)
  else if kMaxStagedFrames ≤ st.pending.length then
    (sendErrorLocked st "Too many pending frames (client too slow?)", false)
  else if copyFail then (sendErrorLocked st "CopyDeviceToHost failed", false)
  else
    ({ st with
        lastCudaStream := r.cudaStream
        pending := st.pending ++
          [{ frameIndex := st.nextFrameIndex
             tsCurrent := r.tsCurrent
             tsNext := r.tsNext
             slotIndex := st.pending.length
             stream := r.cudaStream }]
        nextFrameIndex := st.nextFrameIndex + 1 }, true)

/-- Embedding of `FlushPendingFramesLocked` (inference_sessions.cpp:392-428).
`syncFail` models a failing CUDA stream synchronize; `sendFailAt = some k`
models `SendFrame` failing on the k-th pending frame (earlier frames were
already written to the socket; the queue is not cleared), `none` models all
sends succeeding, after which the queue is cleared. -/
def flushPendingFrames (st : SessionState) (syncFail : Bool)
    (sendFailAt : Option Nat) : SessionState × Bool :=
  if st.pending.isEmpty then (st, true)
  else if st.lastCudaStream.isNone then
    (sendErrorLocked st "Internal error: no CUDA stream associated with pending frames", false)
  else if syncFail then
    (sendErrorLocked st "CUDA stream synchronization failed", false)
  else
    match sendFailAt with
    | some k =>
      if k < st.pending.length then
        ({ st with sentFrames := st.sentFrames ++ st.pending.take k }, false)
      else
        ({ st with
            sentFrames := st.sentFrames ++ st.pending
            pending := [] }, true)
    | none =>
      ({ st with
          sentFrames := st.sentFrames ++ st.pending
          pending := [] }, true)

/-- Events driving one session: pool/dispatcher transitions (`start`, `stop`,
`reset`), engine result callbacks, and flushes from the PushAudio drive
loop. -/
inductive SessionEvent
  | start
  | stop
  | reset
  | result (r : DeviceResults) (copyFail : Bool)
  | flush (syncFail : Bool) (sendFailAt : Option Nat)
  deriving Repr, DecidableEq

/-- One step of the session state machine. -/
def sessionStep (wc : Nat) (st : SessionState) (e : SessionEvent) : SessionState :=
  match e with
  | .start => sessionStart st
  | .stop => sessionStop st
  | .reset => resetForReuse st
  | .result r copyFail => (onDeviceResults wc st r copyFail).1
  | .flush sf sfa => (flushPendingFrames st sf sfa).1

/-- Run a list of events from a state. -/
def sessionRun (wc : Nat) (st : SessionState) (evs : List SessionEvent) : SessionState :=
  evs.foldl (sessionStep wc) st

/-- Events that occur while a connection is attached (engine callbacks and
flushes); `start`, `stop` and `reset` are pool-side transitions. -/
def connEvent : SessionEvent → Bool
  | .result _ _ => true
  | .flush _ _ => true
  | _ => false

/-- Timestamps (`timeStampCurrentFrame`) of the result callbacks in an event
list, in order. -/
def resultTs (evs : List SessionEvent) : List Int :=
  evs.filterMap (fun e => match e with
    | .result r _ => some r.tsCurrent
    | _ => none)

/-- Frames staged on the current connection, sent ones first. -/
def stagedFrames (st : SessionState) : List StagedFrame :=
  st.sentFrames ++ st.pending

/-! ## PushAudio accumulator model (`inference_sessions.cpp`, `PushAudio`) -/

/-- Audio accumulator state.  Modelled from the spec (§6.4): `samples` is the
full sequence of float samples accumulated since the last reset, so
`NbAccumulatedSamples() = samples.length` (the absolute index of the next
sample); `DropSamplesBefore` only releases resident memory and does not
change this count.  Sample values are exact: PCM conversion divides an
`int16` by the power of two 32768, which is exact in float32. -/
structure AudioAccumState where
  samples : List ℚ
  deriving Repr, DecidableEq

/-- PCM16 → float conversion (inference_sessions.cpp:263): `sample / 32768.0`. -/
def pcm16ToFloat (s : Int) : ℚ := (s : ℚ) / 32768

/-- Embedding of the validation and accumulation part of
`SessionContext::PushAudio` (inference_sessions.cpp:212-297).  Engine
operations (`Accumulate`, `Execute`, `FlushPendingFramesLocked`, the drops)
are external-collaborator calls modelled as succeeding; the staging/flush
behaviour is modelled separately by the session state machine.  Returns the
new accumulator state, the call's boolean result, and the Error message sent
to the client, if any. -/
def pushAudio (attached : Bool) (st : AudioAccumState) (startSampleIndex : Int)
    (pcm : List Int) : AudioAccumState × Bool × Option String :=
  if startSampleIndex < 0 then
    (st, false, if attached then some "startSampleIndex must be >= 0" else none)
  else if !attached then (st, false, none)
  else
    let accumulated := st.samples.length
    let startU := startSampleIndex.toNat
    if startU < accumulated then
      (st, false,
        some "PushAudio startSampleIndex is behind the accumulator (out-of-order audio)")
    else
      let gap := startU - accumulated
      if 16000 * 10 < gap then (st, false, some "Audio gap too large")
      else
        ({ samples := st.samples ++ List.replicate gap 0 ++ pcm.map pcm16ToFloat },
          true, none)

/-- Run a sequence of PushAudio calls (as the dispatcher does, one per Binary
message, continuing after errors).  Returns the final accumulator state,
whether every call succeeded, and all Error messages produced. -/
def pushAudioRun (attached : Bool) (st : AudioAccumState)
    (calls : List (Int × List Int)) : AudioAccumState × Bool × List String :=
  match calls with
  | [] => (st, true, [])
  | (s, pcm) :: rest =>
    let out := pushAudio attached st s pcm
    let outRest := pushAudioRun attached out.1 rest
    (outRest.1, out.2.1 && outRest.2.1, out.2.2.toList ++ outRest.2.2)

/-- The gap `startSampleIndex - NbAccumulatedSamples()` of each call of a
PushAudio sequence run on an attached session (the quantity the claims
constrain), as a signed integer. -/
def pushAudioGaps (st : AudioAccumState) (calls : List (Int × List Int)) : List Int :=
  match calls with
  | [] => []
  | (s, pcm) :: rest =>
    (s - (st.samples.length : Int)) :: pushAudioGaps (pushAudio true st s pcm).1 rest

/-! ## StartSession validation and dispatcher (`main.cpp`) -/

/-- C `isspace` (default locale) on ASCII. -/
def cIsSpace (c : Char) : Bool :=
  c == ' ' || c == '\t' || c == '\n' || c == '\x0b' || c == '\x0c' || c == '\r'

/-- Embedding of `CanonicalizePath` (main.cpp:32-51), non-Windows variant:
backslashes become forward slashes, trailing slashes and whitespace are
trimmed, leading whitespace is trimmed, one leading `./` is stripped. -/
def canonicalizePath (s : String) : String :=
  let cs := s.data.map (fun c => if c == '\\' then '/' else c)
  let cs := (cs.reverse.dropWhile (fun c => c == '/' || cIsSpace c)).reverse
  let cs := cs.dropWhile cIsSpace
  let cs := match cs with
    | '.' :: '/' :: rest => rest
    | other => other
  String.mk cs

/-- Embedding of `CanonicalizeExecutionOption` (main.cpp:53-63): lowercase,
then keep only alphanumeric characters. -/
def canonicalizeExecutionOption (s : String) : String :=
  String.mk ((s.data.map Char.toLower).filter Char.isAlphanum)

/-- The JSON value found under `fps` or `frame_rate` in a StartSession
request: an integer, an object whose `numerator`/`denominator` integer fields
may be missing (`none`), or a value of any other shape. -/
inductive FpsJson
  | jint (n : Int)
  | jobj (numerator denominator : Option Int)
  | jother
  deriving Repr, DecidableEq

/-- Embedding of `TryParseFrameRate` (main.cpp:81-114): an integer must be
positive and gets denominator 1; an object needs positive integer
`numerator` and `denominator`. -/
def tryParseFrameRate : FpsJson → Except String (Nat × Nat)
  | .jint n =>
    if n ≤ 0 then .error "fps must be > 0" else .ok (n.toNat, 1)
  | .jobj numerator? denominator? =>
    match numerator?, denominator? with
    | some numerator, some denominator =>
      if numerator ≤ 0 ∨ denominator ≤ 0 then
        .error "frame_rate numerator/denominator must be > 0"
      else .ok (numerator.toNat, denominator.toNat)
    | _, _ => .error "frame_rate must contain numerator and denominator"
  | .jother => .error "fps must be an integer or an object \x7bnumerator,denominator\x7d"

/-- The `options` object of a StartSession request; `none` fields are absent
(fields of the wrong JSON type are outside this model). -/
structure ReqOptions where
  useGpuSolver : Option Bool
  executionOption : Option String
  deriving Repr, DecidableEq

/-- A StartSession request: each field is `none` when absent. -/
structure StartSessionRequest where
  model : Option String
  fps : Option FpsJson
  frameRate : Option FpsJson
  options : Option ReqOptions
  deriving Repr, DecidableEq

/-- The server configuration advertised by `DescribeSessionStarted` (the
fields `ValidateStartSessionRequest` reads from the `SessionStarted` JSON). -/
structure ServerInfo where
  model : String
  fpsNumerator : Nat
  fpsDenominator : Nat
  useGpuSolver : Bool
  executionOption : String
  deriving Repr, DecidableEq

/-- The value validated as the requested frame rate (main.cpp:134):
`frame_rate` wins when both `frame_rate` and `fps` are present. -/
def fpsRequested (req : StartSessionRequest) : Option FpsJson :=
  match req.frameRate with
  | some v => some v
  | none => req.fps

/-- Model path comparison step of `ValidateStartSessionRequest`
(main.cpp:117-128). -/
def modelCheck (req : StartSessionRequest) (server : ServerInfo) : Option String :=
  match req.model with
  | none => none
  | some m =>
    let reqModel := canonicalizePath m
    let actualModel := canonicalizePath server.model
    if actualModel ≠ "" ∧ reqModel ≠ actualModel then
      some "Requested model does not match server model"
    else none

/-- Frame-rate comparison step of `ValidateStartSessionRequest`
(main.cpp:130-158). -/
def fpsCheck (req : StartSessionRequest) (server : ServerInfo) : Option String :=
  match fpsRequested req with
  | none => none
  | some v =>
    match tryParseFrameRate v with
    | .error e => some e
    | .ok (reqNum, reqDen) =>
      if reqNum ≠ server.fpsNumerator ∨ reqDen ≠ server.fpsDenominator then
        some ("Requested frame_rate " ++ toString reqNum ++ "/" ++ toString reqDen
          ++ " does not match server " ++ toString server.fpsNumerator ++ "/"
          ++ toString server.fpsDenominator)
      else none

/-- The `options.execution_option` comparison (main.cpp:186-197). -/
def execOptionCheck (opts : ReqOptions) (server : ServerInfo) : Option String :=
  match opts.executionOption with
  | none => none
  | some e =>
    let reqExec := canonicalizeExecutionOption e
    let actualExec := canonicalizeExecutionOption server.executionOption
    if actualExec ≠ "" ∧ reqExec ≠ actualExec then
      some "options.execution_option does not match server"
    else none

/-- The `options` comparison step of `ValidateStartSessionRequest`
(main.cpp:160-198). -/
def optionsCheck (req : StartSessionRequest) (server : ServerInfo) : Option String :=
  match req.options with
  | none => none
  | some opts =>
    match opts.useGpuSolver with
    | some reqGpu =>
      if reqGpu ≠ server.useGpuSolver then
        some "options.use_gpu_solver does not match server"
      else execOptionCheck opts server
    | none => execOptionCheck opts server

/-- Embedding of `ValidateStartSessionRequest` (main.cpp:116-201): the first
failing check wins; `none` means the request is accepted. -/
def validateStartSessionRequest (req : StartSessionRequest) (server : ServerInfo) :
    Option String :=
  match modelCheck req server with
  | some e => some e
  | none =>
    match fpsCheck req server with
    | some e => some e
    | none => optionsCheck req server

/-- Text messages the dispatcher sends back during StartSession handling. -/
inductive OutMsg
  | errorMsg (message : String)
  | sessionStartedMsg
  deriving Repr, DecidableEq

/-- Embedding of the `StartSession` branch of `HandleClient`
(main.cpp:237-260).  The free stack is a list whose head is the top
(`_freeIndices.back()`); `bound` is the connection's `sessionIndex`.
`Acquire`'s `ResetForReuse` is modelled as succeeding.  Returns the new free
stack, the new bound index, and the messages sent. -/
def handleStartSession (req : StartSessionRequest) (server : ServerInfo)
    (free : List Nat) (bound : Option Nat) :
    List Nat × Option Nat × List OutMsg :=
  if bound.isSome then
    (free, bound, [.errorMsg "Session already started for this connection"])
  else
    match free with
    | [] => (free, bound, [.errorMsg "Server busy (no free sessions)"])
    | idx :: rest =>
      match validateStartSessionRequest req server with
      | some err => (idx :: rest, none, [.errorMsg err])
      | none => (rest, some idx, [.sessionStartedMsg])

/-- The literal request of spec scenario 2: a bare
`StartSession` with `fps = 30`. -/
def exampleFps30Request : StartSessionRequest :=
  { model := none, fps := some (.jint 30), frameRate := none, options := none }

/-- A 60/1 server configuration, as advertised by the default build. -/
def exampleServer60 : ServerInfo :=
  { model := "_data/generated/audio2face-sdk/samples/data/mark/model.json"
    fpsNumerator := 60
    fpsDenominator := 1
    useGpuSolver := true
    executionOption := "SkinTongue" }

/-! ## Derived definitions used by the statements -/

/-- The 8 big-endian bytes of a 64-bit length, as emitted by `SendFrame`'s
`len7 = 127` branch and consumed by `ReadFrame`. -/
def lenBytes8 (len : Nat) : List Nat :=
  (List.range 8).map (fun j => len / 2 ^ ((7 - j) * 8) % 256)

/-- Unmasked frame header with a 7-bit payload length (valid for
`len ≤ 125`): FIN set, mask bit clear. -/
def frameHeader7 (opcode len : Nat) : List Nat := [128 + opcode % 16, len]

/-- Unmasked frame header with a 16-bit extended payload length (valid for
`len ≤ 65535`): FIN set, mask bit clear. -/
def frameHeader16 (opcode len : Nat) : List Nat :=
  [128 + opcode % 16, 126, len / 256 % 256, len % 256]

/-- Unmasked frame header with a 64-bit extended payload length: FIN set,
mask bit clear. -/
def frameHeader64 (opcode len : Nat) : List Nat :=
  (128 + opcode % 16) :: 127 :: lenBytes8 len

/-- A PushAudio call sequence with monotonically non-decreasing
`startSampleIndex` (0, then 1) whose second call nevertheless starts behind
the accumulator: the first call accumulates two samples. -/
def outOfOrderCalls : List (Int × List Int) := [(0, [0, 0]), (1, [])]

/-- Invariant tying `_lastCudaStream` to the pending queue: the internal
no-stream flush error was never emitted, every pending frame was staged with
a non-null stream, and `_lastCudaStream` is exactly the stream of the most
recently staged pending frame. -/
def streamInv (st : SessionState) : Prop :=
  ("Internal error: no CUDA stream associated with pending frames" ∉ st.sentErrors)
  ∧ (∀ f ∈ st.pending, f.stream.isSome)
  ∧ (∀ f, st.pending.getLast? = some f → st.lastCudaStream = f.stream)

/-- An attached session whose pending queue already holds
`kMaxStagedFrames = 256` staged frames. -/
def fullPendingSession : SessionState :=
  { attached := true
    nextFrameIndex := 256
    pending := List.replicate 256
      { frameIndex := 0, tsCurrent := 0, tsNext := 0, slotIndex := 0, stream := none }
    lastCudaStream := some 0
    sentFrames := []
    sentErrors := [] }

/-- An attached session with an empty pending queue. -/
def emptyPendingSession : SessionState :=
  { attached := true
    nextFrameIndex := 0
    pending := []
    lastCudaStream := none
    sentFrames := []
    sentErrors := [] }

/-- A concrete connection trace: two engine results followed by a flush. -/
def connWitnessEvents : List SessionEvent :=
  [SessionEvent.result { weightsSize := 1, cudaStream := some 0, tsCurrent := 10, tsNext := 11 } false,
   SessionEvent.result { weightsSize := 1, cudaStream := some 0, tsCurrent := 12, tsNext := 13 } false,
   SessionEvent.flush false none]

/-! ## Theorems -/

/-- Claim C1, counterexample: a PushAudio sequence whose `startSampleIndex`
values (0, then 1) are monotonically non-decreasing and whose per-call gaps
are all at most 160000 samples nevertheless produces an Error: the first call
accumulates two samples, so the second call starts behind the accumulator and
hits the out-of-order branch.  Monotone start indices with gap ≤ 10 s do not
suffice for error-free PushAudio. -/
theorem pushAudio_monotone_claim_false :
    List.Chain' (· ≤ ·) (outOfOrderCalls.map Prod.fst)
    ∧ (∀ g ∈ pushAudioGaps { samples := [] } outOfOrderCalls, g ≤ 160000)
    ∧ ¬ ((pushAudioRun true { samples := [] } outOfOrderCalls).2.1 = true
        ∧ (pushAudioRun true { samples := [] } outOfOrderCalls).2.2 = []) := by
  refine ⟨?_, by decide, by decide⟩
  simp only [outOfOrderCalls, List.map, List.chain'_cons, List.chain'_singleton, and_true]
  norm_num

/-- Helper for C1: a PushAudio run from any accumulator state succeeds with no
errors when every call's gap lies in [0, 160000]. -/
theorem pushAudioRun_ok_aux (calls : List (Int × List Int)) :
    ∀ st : AudioAccumState,
      (∀ g ∈ pushAudioGaps st calls, 0 ≤ g ∧ g ≤ 160000) →
      (pushAudioRun true st calls).2.1 = true ∧ (pushAudioRun true st calls).2.2 = [] := by
  induction calls with
  | nil => intro st _; exact ⟨rfl, rfl⟩
  | cons c rest ih =>
    intro st hg
    obtain ⟨s, pcm⟩ := c
    have hhead : 0 ≤ s - (st.samples.length : Int) ∧ s - (st.samples.length : Int) ≤ 160000 :=
      hg _ (by simp [pushAudioGaps])
    have hpush : pushAudio true st s pcm =
        ({ samples := st.samples ++ List.replicate (s.toNat - st.samples.length) 0
            ++ pcm.map pcm16ToFloat }, true, none) := by
      unfold pushAudio
      rw [if_neg (by omega), if_neg (by simp), if_neg (by omega), if_neg (by omega)]
    have htail := ih (pushAudio true st s pcm).1 (by
      intro g hgmem
      refine hg g ?_
      simp only [pushAudioGaps]
      exact List.mem_cons_of_mem _ hgmem)
    simp only [pushAudioRun, hpush] at htail ⊢
    exact ⟨by simpa [List.append_assoc] using htail.1,
      by simpa [List.append_assoc] using htail.2⟩

theorem sendErrorLocked_pending (st : SessionState) (m : String) :
    (sendErrorLocked st m).pending = st.pending := by
  unfold sendErrorLocked; split_ifs <;> rfl

/-- Helper for C3: one step preserves the queue bound and slot density. -/
theorem sessionStep_queue_invariant (wc : Nat) (st : SessionState) (e : SessionEvent)
    (hlen : st.pending.length ≤ kMaxStagedFrames)
    (hdense : st.pending.map StagedFrame.slotIndex = List.range st.pending.length) :
    (sessionStep wc st e).pending.length ≤ kMaxStagedFrames
    ∧ (sessionStep wc st e).pending.map StagedFrame.slotIndex
        = List.range (sessionStep wc st e).pending.length := by
  cases e with
  | start => exact ⟨by simp [sessionStep, sessionStart], by simp [sessionStep, sessionStart]⟩
  | stop => exact ⟨by simpa [sessionStep, sessionStop] using hlen,
      by simpa [sessionStep, sessionStop] using hdense⟩
  | reset => exact ⟨by simp [sessionStep, resetForReuse], by simp [sessionStep, resetForReuse]⟩
  | result r cf =>
    simp only [sessionStep, onDeviceResults]
    split_ifs with h1 h2 h3 h4 h5
    · exact ⟨hlen, hdense⟩
    · exact ⟨hlen, hdense⟩
    · exact ⟨by simpa [sendErrorLocked_pending] using hlen,
        by simpa [sendErrorLocked_pending] using hdense⟩
    · exact ⟨by simpa [sendErrorLocked_pending] using hlen,
        by simpa [sendErrorLocked_pending] using hdense⟩
    · exact ⟨by simpa [sendErrorLocked_pending] using hlen,
        by simpa [sendErrorLocked_pending] using hdense⟩
    · constructor
      · simp only [List.length_append, List.length_cons, List.length_nil]
        unfold kMaxStagedFrames at h4 ⊢
        omega
      · simp only [List.map_append, List.map_cons, List.map_nil, hdense,
          List.length_append, List.length_cons, List.length_nil]
        rw [List.range_succ]
  | flush sf sfa =>
    cases sfa with
    | none =>
      simp only [sessionStep, flushPendingFrames]
      split_ifs with h1 h2 h3
      · exact ⟨hlen, hdense⟩
      · exact ⟨by simpa [sendErrorLocked_pending] using hlen,
          by simpa [sendErrorLocked_pending] using hdense⟩
      · exact ⟨by simpa [sendErrorLocked_pending] using hlen,
          by simpa [sendErrorLocked_pending] using hdense⟩
      · exact ⟨by simp, by simp⟩
    | some k =>
      simp only [sessionStep, flushPendingFrames]
      split_ifs with h1 h2 h3 h4
      · exact ⟨hlen, hdense⟩
      · exact ⟨by simpa [sendErrorLocked_pending] using hlen,
          by simpa [sendErrorLocked_pending] using hdense⟩
      · exact ⟨by simpa [sendErrorLocked_pending] using hlen,
          by simpa [sendErrorLocked_pending] using hdense⟩
      · exact ⟨hlen, hdense⟩
      · exact ⟨by simp, by simp⟩

/-- Claim C3: every session operation preserves the invariant
`pending.size() ≤ kMaxStagedFrames = 256` together with slot density
(`slotIndex` values are exactly `[0 .. pending.size())`); when
`OnDeviceResults` runs with the queue already at 256 frames it sends an Error
message and returns false without appending; otherwise it appends one frame
whose `slotIndex` equals the previous queue size. -/
theorem pending_queue_bounded (wc : Nat) (st : SessionState) (e : SessionEvent)
    (hlen : st.pending.length ≤ kMaxStagedFrames)
    (hdense : st.pending.map StagedFrame.slotIndex = List.range st.pending.length)
    (stFull : SessionState) (rFull : DeviceResults)
    (hfAtt : stFull.attached = true) (hfSize : rFull.weightsSize = wc) (hwc : wc ≠ 0)
    (hfLen : stFull.pending.length = kMaxStagedFrames)
    (stOk : SessionState) (rOk : DeviceResults)
    (hoAtt : stOk.attached = true) (hoSize : rOk.weightsSize = wc)
    (hoLen : stOk.pending.length < kMaxStagedFrames) :
    ((sessionStep wc st e).pending.length ≤ kMaxStagedFrames
      ∧ (sessionStep wc st e).pending.map StagedFrame.slotIndex
          = List.range (sessionStep wc st e).pending.length)
    ∧ onDeviceResults wc stFull rFull false
        = ({ stFull with sentErrors := stFull.sentErrors
              ++ ["Too many pending frames (client too slow?)"] }, false)
    ∧ onDeviceResults wc stOk rOk false
        = ({ stOk with
              lastCudaStream := rOk.cudaStream
              pending := stOk.pending ++
                [{ frameIndex := stOk.nextFrameIndex
                   tsCurrent := rOk.tsCurrent
                   tsNext := rOk.tsNext
                   slotIndex := stOk.pending.length
                   stream := rOk.cudaStream }]
              nextFrameIndex := stOk.nextFrameIndex + 1 }, true) := by
  refine ⟨sessionStep_queue_invariant wc st e hlen hdense, ?_, ?_⟩
  · unfold onDeviceResults
    rw [hfAtt, hfSize, hfLen]
    simp only [Bool.not_true, Bool.false_eq_true, if_false]
    rw [if_neg (by simpa using hwc), if_neg (by simp), if_pos (le_refl _)]
    unfold sendErrorLocked
    rw [if_pos hfAtt]
    simp [hfAtt]
  · unfold onDeviceResults
    rw [hoAtt, hoSize]
    simp only [Bool.not_true, Bool.false_eq_true, if_false]
    rw [if_neg (by simpa using hwc), if_neg (by simp), if_neg (by omega)]

theorem sendErrorLocked_lastStream (st : SessionState) (m : String) :
    (sendErrorLocked st m).lastCudaStream = st.lastCudaStream := by
  unfold sendErrorLocked; split_ifs <;> rfl

theorem streamInv_sendErrorLocked (st : SessionState) (m : String)
    (hm : m ≠ "Internal error: no CUDA stream associated with pending frames")
    (h : streamInv st) : streamInv (sendErrorLocked st m) := by
  obtain ⟨hmsg, hall, hlast⟩ := h
  unfold streamInv sendErrorLocked
  split_ifs
  · refine ⟨?_, hall, hlast⟩
    intro hmem
    simp only [List.mem_append, List.mem_singleton] at hmem
    rcases hmem with h | h
    · exact hmsg h
    · exact hm h.symm
  · exact ⟨hmsg, hall, hlast⟩

/-- Helper for C10: every session event preserves `streamInv` when engine
callbacks carry non-null streams. -/
theorem streamInv_step (wc : Nat) (st : SessionState) (e : SessionEvent)
    (hres : ∀ r cf, e = .result r cf → r.cudaStream.isSome)
    (hinv : streamInv st) : streamInv (sessionStep wc st e) := by
  obtain ⟨hmsg, hall, hlast⟩ := hinv
  cases e with
  | start =>
    exact ⟨by simp [sessionStep, sessionStart], by simp [sessionStep, sessionStart],
      by simp [sessionStep, sessionStart]⟩
  | stop =>
    exact ⟨by simpa [sessionStep, sessionStop] using hmsg,
      by simpa [sessionStep, sessionStop] using hall,
      by simpa [sessionStep, sessionStop] using hlast⟩
  | reset =>
    exact ⟨by simpa [sessionStep, resetForReuse] using hmsg,
      by simp [sessionStep, resetForReuse], by simp [sessionStep, resetForReuse]⟩
  | result r cf =>
    have hstream : r.cudaStream.isSome := hres r cf rfl
    simp only [sessionStep, onDeviceResults]
    split_ifs with h1 h2 h3 h4 h5
    · exact ⟨hmsg, hall, hlast⟩
    · exact ⟨hmsg, hall, hlast⟩
    · exact streamInv_sendErrorLocked st _ (by decide) ⟨hmsg, hall, hlast⟩
    · exact streamInv_sendErrorLocked st _ (by decide) ⟨hmsg, hall, hlast⟩
    · exact streamInv_sendErrorLocked st _ (by decide) ⟨hmsg, hall, hlast⟩
    · refine ⟨hmsg, ?_, ?_⟩
      · intro f hf
        rcases List.mem_append.mp hf with h | h
        · exact hall f h
        · simp only [List.mem_singleton] at h
          subst h
          exact hstream
      · intro f hf
        rw [List.getLast?_concat] at hf
        cases hf
        rfl
  | flush sf sfa =>
    have hinv' : streamInv st := ⟨hmsg, hall, hlast⟩
    cases sfa with
    | none =>
      simp only [sessionStep, flushPendingFrames]
      split_ifs with h1 h2 h3
      · exact hinv'
      · exfalso
        have hne : st.pending ≠ [] := by
          intro h; rw [h] at h1; simp at h1
        have hf := List.getLast?_eq_getLast_of_ne_nil hne
        have heq := hlast _ hf
        have hsome := hall _ (List.getLast_mem hne)
        rw [Option.isNone_iff_eq_none] at h2
        rw [h2] at heq
        rw [← heq] at hsome
        simp at hsome
      · exact streamInv_sendErrorLocked st _ (by decide) hinv'
      · exact ⟨hmsg, by simp, by simp⟩
    | some k =>
      simp only [sessionStep, flushPendingFrames]
      split_ifs with h1 h2 h3 h4
      · exact hinv'
      · exfalso
        have hne : st.pending ≠ [] := by
          intro h; rw [h] at h1; simp at h1
        have hf := List.getLast?_eq_getLast_of_ne_nil hne
        have heq := hlast _ hf
        have hsome := hall _ (List.getLast_mem hne)
        rw [Option.isNone_iff_eq_none] at h2
        rw [h2] at heq
        rw [← heq] at hsome
        simp at hsome
      · exact streamInv_sendErrorLocked st _ (by decide) hinv'
      · exact ⟨hmsg, hall, hlast⟩
      · exact ⟨hmsg, by simp, by simp⟩

theorem sendErrorLocked_attached (st : SessionState) (m : String) :
    (sendErrorLocked st m).attached = st.attached := by
  unfold sendErrorLocked; split_ifs <;> rfl

theorem sendErrorLocked_sentFrames (st : SessionState) (m : String) :
    (sendErrorLocked st m).sentFrames = st.sentFrames := by
  unfold sendErrorLocked; split_ifs <;> rfl

theorem sendErrorLocked_nextFrameIndex (st : SessionState) (m : String) :
    (sendErrorLocked st m).nextFrameIndex = st.nextFrameIndex := by
  unfold sendErrorLocked; split_ifs <;> rfl

theorem stagedFrames_sendErrorLocked (st : SessionState) (m : String) :
    stagedFrames (sendErrorLocked st m) = stagedFrames st := by
  unfold stagedFrames
  rw [sendErrorLocked_sentFrames, sendErrorLocked_pending]

/-- Helper for C2: one connection event keeps the session attached, keeps the
staged frame indices equal to `range nextFrameIndex`, and keeps the staged
timestamps a sublist of the previously staged ones plus the event's
timestamp. -/
theorem staged_step (wc : Nat) (st : SessionState) (e : SessionEvent)
    (hconn : connEvent e = true)
    (hok : ∀ sf sfa, e = .flush sf sfa → sfa = none)
    (hatt : st.attached = true) :
    (sessionStep wc st e).attached = true
    ∧ ((stagedFrames st).map StagedFrame.frameIndex = List.range st.nextFrameIndex →
        (stagedFrames (sessionStep wc st e)).map StagedFrame.frameIndex
          = List.range (sessionStep wc st e).nextFrameIndex)
    ∧ List.Sublist ((stagedFrames (sessionStep wc st e)).map StagedFrame.tsCurrent)
        ((stagedFrames st).map StagedFrame.tsCurrent ++ resultTs [e]) := by
  cases e with
  | start => simp [connEvent] at hconn
  | stop => simp [connEvent] at hconn
  | reset => simp [connEvent] at hconn
  | result r cf =>
    have hts : resultTs [SessionEvent.result r cf] = [r.tsCurrent] := rfl
    rw [hts]
    simp only [sessionStep, onDeviceResults]
    split_ifs with h1 h2 h3 h4 h5
    · simp [hatt] at h1
    · exact ⟨hatt, fun h => h, List.sublist_append_left _ _⟩
    · exact ⟨by rw [sendErrorLocked_attached]; exact hatt,
        fun h => by rwa [stagedFrames_sendErrorLocked, sendErrorLocked_nextFrameIndex],
        by rw [stagedFrames_sendErrorLocked]; exact List.sublist_append_left _ _⟩
    · exact ⟨by rw [sendErrorLocked_attached]; exact hatt,
        fun h => by rwa [stagedFrames_sendErrorLocked, sendErrorLocked_nextFrameIndex],
        by rw [stagedFrames_sendErrorLocked]; exact List.sublist_append_left _ _⟩
    · exact ⟨by rw [sendErrorLocked_attached]; exact hatt,
        fun h => by rwa [stagedFrames_sendErrorLocked, sendErrorLocked_nextFrameIndex],
        by rw [stagedFrames_sendErrorLocked]; exact List.sublist_append_left _ _⟩
    · refine ⟨hatt, ?_, ?_⟩
      · intro h
        simp only [stagedFrames] at h ⊢
        rw [← List.append_assoc, List.map_append, h, List.map_cons, List.map_nil,
          List.range_succ]
      · simp only [stagedFrames]
        rw [← List.append_assoc, List.map_append]
        exact List.Sublist.append (List.Sublist.refl _) (by simp)
  | flush sf sfa =>
    have hsfa : sfa = none := hok sf sfa rfl
    subst hsfa
    have hts : resultTs [SessionEvent.flush sf none] = [] := rfl
    rw [hts, List.append_nil]
    simp only [sessionStep, flushPendingFrames]
    split_ifs with h1 h2 h3
    · exact ⟨hatt, fun h => h, List.Sublist.refl _⟩
    · exact ⟨by rw [sendErrorLocked_attached]; exact hatt,
        fun h => by rwa [stagedFrames_sendErrorLocked, sendErrorLocked_nextFrameIndex],
        by rw [stagedFrames_sendErrorLocked]⟩
    · exact ⟨by rw [sendErrorLocked_attached]; exact hatt,
        fun h => by rwa [stagedFrames_sendErrorLocked, sendErrorLocked_nextFrameIndex],
        by rw [stagedFrames_sendErrorLocked]⟩
    · refine ⟨hatt, ?_, ?_⟩
      · intro h
        simp only [stagedFrames] at h ⊢
        simpa using h
      · simp only [stagedFrames]
        simp

/-- Helper for C2: the step invariant, folded over a connection trace. -/
theorem staged_run (wc : Nat) (evs : List SessionEvent) :
    ∀ st : SessionState,
      (∀ e ∈ evs, connEvent e = true) →
      (∀ sf sfa, SessionEvent.flush sf sfa ∈ evs → sfa = none) →
      st.attached = true →
      (stagedFrames st).map StagedFrame.frameIndex = List.range st.nextFrameIndex →
      ((sessionRun wc st evs).attached = true
        ∧ (stagedFrames (sessionRun wc st evs)).map StagedFrame.frameIndex
            = List.range (sessionRun wc st evs).nextFrameIndex
        ∧ List.Sublist ((stagedFrames (sessionRun wc st evs)).map StagedFrame.tsCurrent)
            ((stagedFrames st).map StagedFrame.tsCurrent ++ resultTs evs)) := by
  induction evs with
  | nil =>
    intro st _ _ hatt hidx
    exact ⟨hatt, hidx, by simp [sessionRun, resultTs]⟩
  | cons e rest ih =>
    intro st hconn hok hatt hidx
    have hstep := staged_step wc st e (hconn e (List.mem_cons_self e rest))
      (fun sf sfa he => hok sf sfa (he ▸ List.mem_cons_self e rest)) hatt
    have hrun := ih (sessionStep wc st e)
      (fun e' h => hconn e' (List.mem_cons_of_mem _ h))
      (fun sf sfa h => hok sf sfa (List.mem_cons_of_mem _ h))
      hstep.1 (hstep.2.1 hidx)
    refine ⟨hrun.1, hrun.2.1, ?_⟩
    have hassoc : (stagedFrames st).map StagedFrame.tsCurrent ++ resultTs (e :: rest)
        = ((stagedFrames st).map StagedFrame.tsCurrent ++ resultTs [e]) ++ resultTs rest := by
      rw [List.append_assoc]
      unfold resultTs
      rw [← List.filterMap_append]
      rfl
    rw [hassoc]
    exact List.Sublist.trans hrun.2.2 (List.Sublist.append hstep.2.2 (List.Sublist.refl _))

/-- Claim C2: between one acquisition (`Start`) and the following release, for
any trace of engine callbacks and flushes in which sends succeed and the
engine delivers non-decreasing `tsCurrent` timestamps, the binary animation
frames staged by `OnDeviceResults` and sent by `FlushPendingFramesLocked`
carry strictly increasing `frameIndex` values starting from 0 (the sent
sequence of indices is exactly `range`), `tsCurrent` is non-decreasing across
sent frames, and `Start` resets `nextFrameIndex` to 0. -/
theorem animation_frames_monotone (wc : Nat) (s : SessionState) (evs : List SessionEvent)
    (hconn : ∀ e ∈ evs, connEvent e = true)
    (hok : ∀ sf sfa, SessionEvent.flush sf sfa ∈ evs → sfa = none)
    (hts : List.Pairwise (· ≤ ·) (resultTs evs)) :
    ((sessionRun wc (sessionStart s) evs).sentFrames.map StagedFrame.frameIndex
        = List.range (sessionRun wc (sessionStart s) evs).sentFrames.length)
    ∧ List.Pairwise (· ≤ ·)
        ((sessionRun wc (sessionStart s) evs).sentFrames.map StagedFrame.tsCurrent)
    ∧ (sessionStart s).nextFrameIndex = 0 := by
  have h0att : (sessionStart s).attached = true := rfl
  have h0idx : (stagedFrames (sessionStart s)).map StagedFrame.frameIndex
      = List.range (sessionStart s).nextFrameIndex := by
    simp [stagedFrames, sessionStart]
  obtain ⟨hatt, hidx, htsub⟩ := staged_run wc evs (sessionStart s) hconn hok h0att h0idx
  refine ⟨?_, ?_, rfl⟩
  · rw [stagedFrames, List.map_append] at hidx
    have hlen : (List.map StagedFrame.frameIndex
        (sessionRun wc (sessionStart s) evs).sentFrames).length
        ≤ (List.range (sessionRun wc (sessionStart s) evs).nextFrameIndex).length := by
      rw [← hidx]
      simp
    have htake := congrArg
      (List.take (List.map StagedFrame.frameIndex
        (sessionRun wc (sessionStart s) evs).sentFrames).length) hidx
    rw [List.take_left] at htake
    rw [htake, List.take_range]
    rw [List.length_map] at *
    rw [Nat.min_eq_left (by simpa using hlen)]
  · have hempty : (stagedFrames (sessionStart s)).map StagedFrame.tsCurrent = [] := by
      simp [stagedFrames, sessionStart]
    rw [hempty, List.nil_append] at htsub
    have hsub2 : List.Sublist
        ((sessionRun wc (sessionStart s) evs).sentFrames.map StagedFrame.tsCurrent)
        ((stagedFrames (sessionRun wc (sessionStart s) evs)).map StagedFrame.tsCurrent) := by
      rw [stagedFrames, List.map_append]
      exact List.sublist_append_left _ _
    exact hts.sublist (List.Sublist.trans hsub2 htsub)

/-- Helper for C10: `streamInv`, folded over an event trace. -/
theorem streamInv_run (wc : Nat) (evs : List SessionEvent) :
    ∀ st : SessionState,
      (∀ r cf, SessionEvent.result r cf ∈ evs → r.cudaStream.isSome) →
      streamInv st → streamInv (sessionRun wc st evs) := by
  induction evs with
  | nil => intro st _ h; exact h
  | cons e rest ih =>
    intro st hres h
    exact ih (sessionStep wc st e)
      (fun r cf hmem => hres r cf (List.mem_cons_of_mem _ hmem))
      (streamInv_step wc st e
        (fun r cf he => hres r cf (he ▸ List.mem_cons_self _ _)) h)

/-- Claim C10: from the initial session state, for any event trace in which
the engine always supplies a non-null `cudaStream` to `OnDeviceResults`, the
"Internal error: no CUDA stream associated with pending frames" branch of
`FlushPendingFramesLocked` is unreachable (the message is never emitted),
`_lastCudaStream` is non-null whenever the pending queue is non-empty, and it
equals the stream recorded by the staging of the last pending frame. -/
theorem flush_no_stream_error_unreachable (wc : Nat) (evs : List SessionEvent)
    (hstream : ∀ r cf, SessionEvent.result r cf ∈ evs → r.cudaStream.isSome) :
    ("Internal error: no CUDA stream associated with pending frames"
        ∉ (sessionRun wc initialSession evs).sentErrors)
    ∧ ((sessionRun wc initialSession evs).pending ≠ [] →
        (sessionRun wc initialSession evs).lastCudaStream.isSome)
    ∧ (∀ f, (sessionRun wc initialSession evs).pending.getLast? = some f →
        (sessionRun wc initialSession evs).lastCudaStream = f.stream) := by
  have hinit : streamInv initialSession := by
    refine ⟨by simp [initialSession], by simp [initialSession], ?_⟩
    intro f hf
    simp [initialSession] at hf
  obtain ⟨h1, h2, h3⟩ := streamInv_run wc evs initialSession hstream hinit
  refine ⟨h1, ?_, h3⟩
  intro hne
  have hf := List.getLast?_eq_getLast_of_ne_nil hne
  rw [h3 _ hf]
  exact h2 _ (List.getLast_mem hne)

theorem flush_no_stream_error_unreachable_witness :
    ("Internal error: no CUDA stream associated with pending frames"
        ∉ (sessionRun 1 initialSession
            [SessionEvent.start,
             SessionEvent.result ⟨1, some 0, 0, 0⟩ false,
             SessionEvent.flush false none]).sentErrors)
    ∧ ((sessionRun 1 initialSession
            [SessionEvent.start,
             SessionEvent.result ⟨1, some 0, 0, 0⟩ false,
             SessionEvent.flush false none]).pending ≠ [] →
        (sessionRun 1 initialSession
            [SessionEvent.start,
             SessionEvent.result ⟨1, some 0, 0, 0⟩ false,
             SessionEvent.flush false none]).lastCudaStream.isSome)
    ∧ (∀ f, (sessionRun 1 initialSession
            [SessionEvent.start,
             SessionEvent.result ⟨1, some 0, 0, 0⟩ false,
             SessionEvent.flush false none]).pending.getLast? = some f →
        (sessionRun 1 initialSession
            [SessionEvent.start,
             SessionEvent.result ⟨1, some 0, 0, 0⟩ false,
             SessionEvent.flush false none]).lastCudaStream = f.stream) :=
  flush_no_stream_error_unreachable 1 _ (by
    intro r cf h
    simp only [List.mem_cons, List.mem_singleton] at h
    rcases h with h | h | h
    · exact absurd h (by simp)
    · rw [SessionEvent.result.injEq] at h
      rw [h.1]
      rfl
    · exact absurd h (by simp))

set_option maxRecDepth 10000 in
/-- Claim C5: for every client key `K`, the handshake's `Sec-WebSocket-Accept`
value equals `Base64(SHA1(K || "258EAFA5-E914-47DA-95CA-C5AB0DC85B11"))`, and
for the RFC 6455 sample key `"dGhlIHNhbXBsZSBub25jZQ=="` the computed accept
key is `"s3pPLMBiTxaQ9kYGzzhZRbK+xOo="`. -/
theorem webSocketAcceptKey_spec :
    (∀ secKey : String,
      webSocketAcceptKey secKey = base64Encode (sha1 (strBytes (secKey ++ wsGuid))))
    ∧ webSocketAcceptKey "dGhlIHNhbXBsZSBub25jZQ==" = "s3pPLMBiTxaQ9kYGzzhZRbK+xOo=" :=
  ⟨fun _ => rfl, by decide⟩

/-- Claim C1 (amended): for every sequence of PushAudio calls on an attached
session in which each call's gap (`startSampleIndex` minus the accumulator's
accumulated sample count) is at least 0 and at most 10 s (160000 samples at
16 kHz), no Error message is produced and every call succeeds. -/
theorem pushAudio_nonneg_gap_no_error (calls : List (Int × List Int))
    (hgap : ∀ g ∈ pushAudioGaps { samples := [] } calls, 0 ≤ g ∧ g ≤ 160000) :
    (pushAudioRun true { samples := [] } calls).2.1 = true
    ∧ (pushAudioRun true { samples := [] } calls).2.2 = [] :=
  pushAudioRun_ok_aux calls { samples := [] } hgap

theorem pushAudio_nonneg_gap_no_error_witness :
    (pushAudioRun true { samples := [] } [((0 : Int), [1]), (3, [2])]).2.1 = true
    ∧ (pushAudioRun true { samples := [] } [((0 : Int), [1]), (3, [2])]).2.2 = [] :=
  pushAudio_nonneg_gap_no_error [((0 : Int), [1]), (3, [2])] (by decide)

/-- Claim C4: for a PushAudio call with `startSampleIndex ≥ 0` on an attached
session, with `gap = startSampleIndex - accumulated`: if `gap > 160000` an
Error ("Audio gap too large") is sent and the accumulator is unchanged; if
`0 < gap ≤ 160000`, exactly `gap` zero-valued samples are accumulated first,
followed by the PCM samples each converted as `sample / 32768.0`. -/
theorem pushAudio_gap_behaviour (st : AudioAccumState) (start : Int)
    (pcm : List Int) (gap : Int)
    (hstart : 0 ≤ start) (hgap : gap = start - (st.samples.length : Int)) :
    (160000 < gap →
      pushAudio true st start pcm = (st, false, some "Audio gap too large"))
    ∧ (0 < gap → gap ≤ 160000 →
      pushAudio true st start pcm =
        ({ samples := st.samples ++ List.replicate gap.toNat 0 ++ pcm.map pcm16ToFloat },
          true, none)) := by
  constructor
  · intro h
    unfold pushAudio
    rw [if_neg (by omega), if_neg (by simp), if_neg (by omega), if_pos (by omega)]
  · intro h1 h2
    unfold pushAudio
    rw [if_neg (by omega), if_neg (by simp), if_neg (by omega), if_neg (by omega)]
    have : start.toNat - st.samples.length = gap.toNat := by omega
    rw [this]

theorem pushAudio_gap_behaviour_witness :
    (160000 < (2 : Int) →
      pushAudio true { samples := [] } 2 [16384]
        = ({ samples := [] }, false, some "Audio gap too large"))
    ∧ (0 < (2 : Int) → (2 : Int) ≤ 160000 →
      pushAudio true { samples := [] } 2 [16384] =
        ({ samples := ([] : List ℚ) ++ List.replicate (2 : Int).toNat 0
            ++ [(16384 : Int)].map pcm16ToFloat }, true, none)) :=
  pushAudio_gap_behaviour { samples := [] } 2 [16384] 2 (by decide) (by decide)

theorem pending_queue_bounded_witness :
    (onDeviceResults 1 fullPendingSession
      { weightsSize := 1, cudaStream := none, tsCurrent := 0, tsNext := 0 } false).2 = false
    ∧ (onDeviceResults 1 emptyPendingSession
      { weightsSize := 1, cudaStream := some 0, tsCurrent := 0, tsNext := 0 } false).2 = true := by
  have h := pending_queue_bounded 1 initialSession SessionEvent.start (by decide) (by decide)
    fullPendingSession
    { weightsSize := 1, cudaStream := none, tsCurrent := 0, tsNext := 0 }
    rfl rfl (by decide)
    (by simp only [fullPendingSession, List.length_replicate, kMaxStagedFrames])
    emptyPendingSession
    { weightsSize := 1, cudaStream := some 0, tsCurrent := 0, tsNext := 0 }
    rfl rfl (by decide)
  exact ⟨by rw [h.2.1], by rw [h.2.2]⟩

theorem animation_frames_monotone_witness :
    ((sessionRun 1 (sessionStart initialSession) connWitnessEvents).sentFrames.map
        StagedFrame.frameIndex
      = List.range (sessionRun 1 (sessionStart initialSession)
          connWitnessEvents).sentFrames.length)
    ∧ List.Pairwise (· ≤ ·)
        ((sessionRun 1 (sessionStart initialSession) connWitnessEvents).sentFrames.map
          StagedFrame.tsCurrent)
    ∧ (sessionStart initialSession).nextFrameIndex = 0 :=
  animation_frames_monotone 1 initialSession connWitnessEvents (by decide)
    (by
      intro sf sfa h
      simp only [connWitnessEvents, List.mem_cons, List.mem_singleton] at h
      rcases h with h | h | h | h
      · exact absurd h (by simp)
      · exact absurd h (by simp)
      · rw [SessionEvent.flush.injEq] at h
        exact h.2
      · exact absurd h (by simp))
    (by decide)

/-- Reading exactly the first block of a concatenated stream. -/
theorem recvAll_exact (l r : List Nat) : recvAll (l ++ r) l.length = some (l, r) := by
  unfold recvAll
  rw [if_pos (by simp)]
  rw [List.take_left, List.drop_left]

theorem recvAll_exact_of (l r : List Nat) (n : Nat) (h : l.length = n) :
    recvAll (l ++ r) n = some (l, r) := by
  rw [← h]
  exact recvAll_exact l r

/-- Decoding an unmasked frame with a 7-bit length. -/
theorem readFrame_unmasked7 (opcode cap : Nat) (payload rest : List Nat)
    (h125 : payload.length ≤ 125) (hcap : payload.length ≤ cap) :
    readFrame (frameHeader7 opcode payload.length ++ (payload ++ rest)) cap
      = (some { fin := true, opcode := opcode % 16, payload := payload },
         2 + payload.length) := by
  unfold readFrame frameHeader7
  rw [recvAll_exact_of [128 + opcode % 16, payload.length] (payload ++ rest) 2 rfl]
  simp only [List.getD_cons_zero, List.getD_cons_succ]
  have hfin : (128 + opcode % 16) / 128 % 2 = 1 := by omega
  have hmask : payload.length / 128 % 2 = 0 := by omega
  have hlen7 : payload.length % 128 = payload.length := by omega
  simp only [hfin, hmask, hlen7]
  rw [if_neg (by decide)]
  rw [if_neg (by simp only [beq_iff_eq]; omega)]
  rw [if_neg (by simp only [beq_iff_eq]; omega)]
  dsimp only
  rw [if_neg (by omega : ¬cap < payload.length)]
  rw [if_neg (by decide)]
  dsimp only
  rw [recvAll_exact_of payload rest payload.length rfl]
  dsimp only
  rw [if_neg (by decide)]
  have hop : (128 + opcode % 16) % 16 = opcode % 16 := by omega
  rw [hop]

/-- Decoding an unmasked frame with a 16-bit extended length. -/
theorem readFrame_unmasked16 (opcode cap : Nat) (payload rest : List Nat)
    (h16 : payload.length ≤ 65535) (hcap : payload.length ≤ cap) :
    readFrame (frameHeader16 opcode payload.length ++ (payload ++ rest)) cap
      = (some { fin := true, opcode := opcode % 16, payload := payload },
         4 + payload.length) := by
  have hre : frameHeader16 opcode payload.length ++ (payload ++ rest)
      = [128 + opcode % 16, 126]
        ++ ([payload.length / 256 % 256, payload.length % 256] ++ (payload ++ rest)) := by
    simp [frameHeader16]
  rw [hre]
  unfold readFrame
  rw [recvAll_exact_of [128 + opcode % 16, 126] _ 2 rfl]
  simp only [List.getD_cons_zero, List.getD_cons_succ]
  have hfin : (128 + opcode % 16) / 128 % 2 = 1 := by omega
  simp only [hfin]
  rw [if_neg (by decide)]
  rw [if_pos (by decide)]
  rw [recvAll_exact_of [payload.length / 256 % 256, payload.length % 256] _ 2 rfl]
  dsimp only
  simp only [List.getD_cons_zero, List.getD_cons_succ]
  have hdec : 256 * (payload.length / 256 % 256) + payload.length % 256
      = payload.length := by omega
  rw [hdec]
  rw [if_neg (by omega : ¬cap < payload.length)]
  rw [if_neg (by decide)]
  dsimp only
  rw [recvAll_exact_of payload rest payload.length rfl]
  dsimp only
  rw [if_neg (by decide)]
  have hop : (128 + opcode % 16) % 16 = opcode % 16 := by omega
  rw [hop]

theorem lenBytes8_explicit (len : Nat) :
    lenBytes8 len = [len / 2 ^ 56 % 256, len / 2 ^ 48 % 256, len / 2 ^ 40 % 256,
      len / 2 ^ 32 % 256, len / 2 ^ 24 % 256, len / 2 ^ 16 % 256, len / 2 ^ 8 % 256,
      len / 2 ^ 0 % 256] := by
  simp [lenBytes8, List.range_succ]

/-- Decoding an unmasked frame with a 64-bit extended length. -/
theorem readFrame_unmasked64 (opcode cap : Nat) (payload rest : List Nat)
    (h64 : payload.length < 18446744073709551616) (hcap : payload.length ≤ cap) :
    readFrame (frameHeader64 opcode payload.length ++ (payload ++ rest)) cap
      = (some { fin := true, opcode := opcode % 16, payload := payload },
         10 + payload.length) := by
  have hre : frameHeader64 opcode payload.length ++ (payload ++ rest)
      = [128 + opcode % 16, 127] ++ (lenBytes8 payload.length ++ (payload ++ rest)) := by
    simp [frameHeader64]
  rw [hre, lenBytes8_explicit]
  unfold readFrame
  rw [recvAll_exact_of [128 + opcode % 16, 127] _ 2 rfl]
  simp only [List.getD_cons_zero, List.getD_cons_succ]
  have hfin : (128 + opcode % 16) / 128 % 2 = 1 := by omega
  simp only [hfin]
  rw [if_neg (by decide)]
  rw [if_neg (by decide)]
  rw [if_pos (by decide)]
  rw [recvAll_exact_of [payload.length / 2 ^ 56 % 256, payload.length / 2 ^ 48 % 256,
    payload.length / 2 ^ 40 % 256, payload.length / 2 ^ 32 % 256,
    payload.length / 2 ^ 24 % 256, payload.length / 2 ^ 16 % 256,
    payload.length / 2 ^ 8 % 256, payload.length / 2 ^ 0 % 256] _ 8 rfl]
  dsimp only [List.foldl]
  have hdec : 256 * (256 * (256 * (256 * (256 * (256 * (256 * (256 * 0 +
      payload.length / 2 ^ 56 % 256) + payload.length / 2 ^ 48 % 256) +
      payload.length / 2 ^ 40 % 256) + payload.length / 2 ^ 32 % 256) +
      payload.length / 2 ^ 24 % 256) + payload.length / 2 ^ 16 % 256) +
      payload.length / 2 ^ 8 % 256) + payload.length / 2 ^ 0 % 256
      = payload.length := by omega
  rw [hdec]
  rw [if_neg (by omega : ¬cap < payload.length)]
  rw [if_neg (by decide)]
  dsimp only
  rw [recvAll_exact_of payload rest payload.length rfl]
  dsimp only
  rw [if_neg (by decide)]
  have hop : (128 + opcode % 16) % 16 = opcode % 16 := by omega
  rw [hop]

/-- A fragmented frame (`fin = false`) is rejected after the header. -/
theorem readFrame_notfin (b0 b1 cap : Nat) (rest : List Nat)
    (hfin : b0 / 128 % 2 = 0) :
    readFrame (b0 :: b1 :: rest) cap = (none, 2) := by
  unfold readFrame
  rw [show b0 :: b1 :: rest = [b0, b1] ++ rest from rfl]
  rw [recvAll_exact_of [b0, b1] rest 2 rfl]
  simp only [List.getD_cons_zero, List.getD_cons_succ, hfin]
  rw [if_pos (by decide)]

/-- A 7-bit declared length above the cap is rejected after the header. -/
theorem readFrame_reject7 (b0 len7 cap : Nat) (rest : List Nat)
    (hfin : b0 / 128 % 2 = 1) (hlen : len7 ≤ 125) (hcap : cap < len7) :
    readFrame (b0 :: len7 :: rest) cap = (none, 2) := by
  unfold readFrame
  rw [show b0 :: len7 :: rest = [b0, len7] ++ rest from rfl]
  rw [recvAll_exact_of [b0, len7] rest 2 rfl]
  simp only [List.getD_cons_zero, List.getD_cons_succ, hfin]
  have hlen7 : len7 % 128 = len7 := by omega
  simp only [hlen7]
  rw [if_neg (by decide)]
  rw [if_neg (by simp only [beq_iff_eq]; omega)]
  rw [if_neg (by simp only [beq_iff_eq]; omega)]
  dsimp only
  rw [if_pos hcap]

/-- A 16-bit declared length above the cap is rejected after 4 bytes. -/
theorem readFrame_reject16 (b0 len cap : Nat) (rest : List Nat)
    (hfin : b0 / 128 % 2 = 1) (hlen : len ≤ 65535) (hcap : cap < len) :
    readFrame (b0 :: 126 :: (len / 256 % 256) :: (len % 256) :: rest) cap
      = (none, 4) := by
  unfold readFrame
  rw [show b0 :: 126 :: (len / 256 % 256) :: (len % 256) :: rest
      = [b0, 126] ++ ([len / 256 % 256, len % 256] ++ rest) from rfl]
  rw [recvAll_exact_of [b0, 126] _ 2 rfl]
  simp only [List.getD_cons_zero, List.getD_cons_succ, hfin]
  rw [if_neg (by decide)]
  rw [if_pos (by decide)]
  rw [recvAll_exact_of [len / 256 % 256, len % 256] _ 2 rfl]
  dsimp only
  simp only [List.getD_cons_zero, List.getD_cons_succ]
  have hdec : 256 * (len / 256 % 256) + len % 256 = len := by omega
  rw [hdec]
  rw [if_pos hcap]

/-- A 64-bit declared length above the cap is rejected after 10 bytes. -/
theorem readFrame_reject64 (b0 len cap : Nat) (rest : List Nat)
    (hfin : b0 / 128 % 2 = 1) (hlen : len < 18446744073709551616) (hcap : cap < len) :
    readFrame (b0 :: 127 :: (lenBytes8 len ++ rest)) cap = (none, 10) := by
  rw [lenBytes8_explicit]
  unfold readFrame
  rw [show b0 :: 127 :: ([len / 2 ^ 56 % 256, len / 2 ^ 48 % 256, len / 2 ^ 40 % 256,
      len / 2 ^ 32 % 256, len / 2 ^ 24 % 256, len / 2 ^ 16 % 256, len / 2 ^ 8 % 256,
      len / 2 ^ 0 % 256] ++ rest)
      = [b0, 127] ++ ([len / 2 ^ 56 % 256, len / 2 ^ 48 % 256, len / 2 ^ 40 % 256,
      len / 2 ^ 32 % 256, len / 2 ^ 24 % 256, len / 2 ^ 16 % 256, len / 2 ^ 8 % 256,
      len / 2 ^ 0 % 256] ++ rest) from rfl]
  rw [recvAll_exact_of [b0, 127] _ 2 rfl]
  simp only [List.getD_cons_zero, List.getD_cons_succ, hfin]
  rw [if_neg (by decide)]
  rw [if_neg (by decide)]
  rw [if_pos (by decide)]
  rw [recvAll_exact_of [len / 2 ^ 56 % 256, len / 2 ^ 48 % 256, len / 2 ^ 40 % 256,
    len / 2 ^ 32 % 256, len / 2 ^ 24 % 256, len / 2 ^ 16 % 256, len / 2 ^ 8 % 256,
    len / 2 ^ 0 % 256] _ 8 rfl]
  dsimp only [List.foldl]
  have hdec : 256 * (256 * (256 * (256 * (256 * (256 * (256 * (256 * 0 +
      len / 2 ^ 56 % 256) + len / 2 ^ 48 % 256) + len / 2 ^ 40 % 256) +
      len / 2 ^ 32 % 256) + len / 2 ^ 24 % 256) + len / 2 ^ 16 % 256) +
      len / 2 ^ 8 % 256) + len / 2 ^ 0 % 256 = len := by omega
  rw [hdec]
  rw [if_pos hcap]

/-- A sent frame is one of the three unmasked headers followed by the
payload. -/
theorem sendFrame_eq_header (opcode : Nat) (payload : List Nat) :
    sendFrame opcode payload =
      (if payload.length ≤ 125 then frameHeader7 opcode payload.length
       else if payload.length ≤ 65535 then frameHeader16 opcode payload.length
       else frameHeader64 opcode payload.length) ++ payload := by
  unfold sendFrame frameHeader7 frameHeader16 frameHeader64 lenBytes8
  dsimp only
  by_cases h1 : payload.length ≤ 125
  · rw [if_pos h1, if_pos h1]
    simp
  · by_cases h2 : payload.length ≤ 65535
    · rw [if_neg h1, if_neg h1, if_pos h2, if_pos h2]
      simp
    · rw [if_neg h1, if_neg h1, if_neg h2, if_neg h2]
      simp

/-- General codec round trip: any sent frame within the cap decodes back to
its opcode nibble and payload. -/
theorem readFrame_sendFrame (opcode cap : Nat) (payload : List Nat)
    (hcap : payload.length ≤ cap) (h64 : payload.length < 18446744073709551616) :
    (readFrame (sendFrame opcode payload) cap).1
      = some { fin := true, opcode := opcode % 16, payload := payload } := by
  rw [sendFrame_eq_header]
  by_cases h1 : payload.length ≤ 125
  · rw [if_pos h1,
      show frameHeader7 opcode payload.length ++ payload
        = frameHeader7 opcode payload.length ++ (payload ++ []) by simp,
      readFrame_unmasked7 opcode cap payload [] h1 hcap]
  · by_cases h2 : payload.length ≤ 65535
    · rw [if_neg h1, if_pos h2,
        show frameHeader16 opcode payload.length ++ payload
          = frameHeader16 opcode payload.length ++ (payload ++ []) by simp,
        readFrame_unmasked16 opcode cap payload [] h2 hcap]
    · rw [if_neg h1, if_neg h2,
        show frameHeader64 opcode payload.length ++ payload
          = frameHeader64 opcode payload.length ++ (payload ++ []) by simp,
        readFrame_unmasked64 opcode cap payload [] h64 hcap]

/-- Claim C6: for every opcode in Text = 1, Binary = 2 and every payload of
length in 0, 1, 125, 126, 65535, 65536, decoding (`ReadFrame`, at the
dispatcher's 4 MiB cap) a frame produced by encoding (`SendFrame`) yields the
same opcode and the same payload bytes, with `fin = true`. -/
theorem frame_codec_roundtrip (opcode : Nat) (payload : List Nat)
    (hop : opcode = 1 ∨ opcode = 2)
    (hlen : payload.length = 0 ∨ payload.length = 1 ∨ payload.length = 125
      ∨ payload.length = 126 ∨ payload.length = 65535 ∨ payload.length = 65536) :
    (readFrame (sendFrame opcode payload) 4194304).1
      = some { fin := true, opcode := opcode, payload := payload } := by
  have hmod : opcode % 16 = opcode := by omega
  have h := readFrame_sendFrame opcode 4194304 payload (by omega) (by omega)
  rwa [hmod] at h

theorem frame_codec_roundtrip_witness :
    (readFrame (sendFrame 1 [7]) 4194304).1
      = some { fin := true, opcode := 1, payload := [7] } :=
  frame_codec_roundtrip 1 [7] (Or.inl rfl) (by decide)

/-- Claim C7: `ReadFrame` with payload cap `maxPayloadBytes` accepts a
`fin = true` frame whose declared payload length is exactly the cap and reads
its body; a frame whose declared length exceeds the cap — in the 7-bit,
16-bit, or 64-bit (`len7 = 127`) length encoding — fails after consuming only
the 2 header bytes plus the extended-length bytes (2, 4, or 10 bytes in
total), before reading any payload byte, whatever bytes follow; and a frame
with `fin = false` is rejected after the 2 header bytes. -/
theorem readFrame_cap_boundary (cap opcode : Nat) (payloadA : List Nat)
    (hA : payloadA.length = cap) (hA64 : cap < 18446744073709551616)
    (len7 : Nat) (h71 : len7 ≤ 125) (h72 : cap < len7)
    (len16 : Nat) (h161 : len16 ≤ 65535) (h162 : cap < len16)
    (len64 : Nat) (h641 : len64 < 18446744073709551616) (h642 : cap < len64)
    (b0 : Nat) (hb0 : b0 / 128 % 2 = 1)
    (bN bX : Nat) (hbN : bN / 128 % 2 = 0)
    (rest1 rest2 rest3 rest4 : List Nat) :
    (readFrame (sendFrame opcode payloadA) cap).1
      = some { fin := true, opcode := opcode % 16, payload := payloadA }
    ∧ readFrame (b0 :: len7 :: rest1) cap = (none, 2)
    ∧ readFrame (b0 :: 126 :: (len16 / 256 % 256) :: (len16 % 256) :: rest2) cap
        = (none, 4)
    ∧ readFrame (b0 :: 127 :: (lenBytes8 len64 ++ rest3)) cap = (none, 10)
    ∧ readFrame (bN :: bX :: rest4) cap = (none, 2) :=
  ⟨readFrame_sendFrame opcode cap payloadA (by omega) (by omega),
   readFrame_reject7 b0 len7 cap rest1 hb0 h71 h72,
   readFrame_reject16 b0 len16 cap rest2 hb0 h161 h162,
   readFrame_reject64 b0 len64 cap rest3 hb0 h641 h642,
   readFrame_notfin bN bX cap rest4 hbN⟩

theorem readFrame_cap_boundary_witness :
    ((readFrame (sendFrame 2 [1, 2, 3, 4, 5]) 5).1
      = some { fin := true, opcode := 2 % 16, payload := [1, 2, 3, 4, 5] })
    ∧ readFrame (130 :: 6 :: [9, 9, 9, 9, 9, 9]) 5 = (none, 2)
    ∧ readFrame (130 :: 126 :: (300 / 256 % 256) :: (300 % 256) :: [9]) 5 = (none, 4)
    ∧ readFrame (130 :: 127 :: (lenBytes8 70000 ++ [9])) 5 = (none, 10)
    ∧ readFrame (2 :: 0 :: [9]) 5 = (none, 2) :=
  readFrame_cap_boundary 5 2 [1, 2, 3, 4, 5] (by decide) (by decide)
    6 (by decide) (by decide)
    300 (by decide) (by decide)
    70000 (by decide) (by decide)
    130 (by decide)
    2 0 (by decide)
    [9, 9, 9, 9, 9, 9] [9] [9] [9]

/-- Claim C9: for every frame with `fin = true`, the mask bit clear, and
declared payload length within the cap — in each of the three length
encodings — `ReadFrame` succeeds and returns the payload bytes exactly as
received, with no unmasking applied: the server accepts unmasked
client-to-server frames and does not enforce the RFC 6455 requirement that
client frames be masked. -/
theorem unmasked_frames_accepted (cap opcode : Nat)
    (p7 : List Nat) (h7 : p7.length ≤ 125) (h7c : p7.length ≤ cap)
    (p16 : List Nat) (h16 : p16.length ≤ 65535) (h16c : p16.length ≤ cap)
    (p64 : List Nat) (h64 : p64.length < 18446744073709551616) (h64c : p64.length ≤ cap)
    (rest1 rest2 rest3 : List Nat) :
    readFrame (frameHeader7 opcode p7.length ++ (p7 ++ rest1)) cap
      = (some { fin := true, opcode := opcode % 16, payload := p7 }, 2 + p7.length)
    ∧ readFrame (frameHeader16 opcode p16.length ++ (p16 ++ rest2)) cap
      = (some { fin := true, opcode := opcode % 16, payload := p16 }, 4 + p16.length)
    ∧ readFrame (frameHeader64 opcode p64.length ++ (p64 ++ rest3)) cap
      = (some { fin := true, opcode := opcode % 16, payload := p64 }, 10 + p64.length) :=
  ⟨readFrame_unmasked7 opcode cap p7 rest1 h7 h7c,
   readFrame_unmasked16 opcode cap p16 rest2 h16 h16c,
   readFrame_unmasked64 opcode cap p64 rest3 h64 h64c⟩

theorem unmasked_frames_accepted_witness :
    readFrame (frameHeader7 2 [(4 : Nat)].length ++ ([4] ++ [])) 10
      = (some { fin := true, opcode := 2 % 16, payload := [4] }, 2 + [(4 : Nat)].length)
    ∧ readFrame (frameHeader16 2 [(5 : Nat)].length ++ ([5] ++ [])) 10
      = (some { fin := true, opcode := 2 % 16, payload := [5] }, 4 + [(5 : Nat)].length)
    ∧ readFrame (frameHeader64 2 [(6 : Nat)].length ++ ([6] ++ [])) 10
      = (some { fin := true, opcode := 2 % 16, payload := [6] }, 10 + [(6 : Nat)].length) :=
  unmasked_frames_accepted 10 2 [4] (by decide) (by decide) [5] (by decide) (by decide)
    [6] (by decide) (by decide) [] [] []

/-- Claim C8: if a StartSession request passes the model check and specifies
`fps` or `frame_rate` parsing to a positive pair that differs from the
server's advertised frame rate, the dispatcher sends exactly one Error whose
message is "Requested frame_rate <reqNum>/<reqDen> does not match server
<actualNum>/<actualDen>", sends no SessionStarted, and releases the acquired
session so the free stack is unchanged; in particular `fps = 30` against a
60/1 server yields "Requested frame_rate 30/1 does not match server 60/1". -/
theorem startSession_fps_mismatch (req : StartSessionRequest) (server : ServerInfo)
    (idx : Nat) (rest : List Nat) (v : FpsJson) (reqNum reqDen : Nat)
    (hmodel : modelCheck req server = none)
    (hfps : fpsRequested req = some v)
    (hparse : tryParseFrameRate v = .ok (reqNum, reqDen))
    (hmis : reqNum ≠ server.fpsNumerator ∨ reqDen ≠ server.fpsDenominator) :
    handleStartSession req server (idx :: rest) none
      = (idx :: rest, none,
         [OutMsg.errorMsg ("Requested frame_rate " ++ toString reqNum ++ "/"
           ++ toString reqDen ++ " does not match server "
           ++ toString server.fpsNumerator ++ "/" ++ toString server.fpsDenominator)])
    ∧ (∀ m ∈ (handleStartSession req server (idx :: rest) none).2.2,
        m ≠ OutMsg.sessionStartedMsg)
    ∧ (handleStartSession req server (idx :: rest) none).1.length = (idx :: rest).length
    ∧ handleStartSession exampleFps30Request exampleServer60 [0] none
      = ([0], none,
         [OutMsg.errorMsg "Requested frame_rate 30/1 does not match server 60/1"]) := by
  have hval : validateStartSessionRequest req server
      = some ("Requested frame_rate " ++ toString reqNum ++ "/"
          ++ toString reqDen ++ " does not match server "
          ++ toString server.fpsNumerator ++ "/" ++ toString server.fpsDenominator) := by
    unfold validateStartSessionRequest fpsCheck
    rw [hmodel, hfps]
    dsimp only
    rw [hparse]
    dsimp only
    rw [if_pos hmis]
  have hmain : handleStartSession req server (idx :: rest) none
      = (idx :: rest, none,
         [OutMsg.errorMsg ("Requested frame_rate " ++ toString reqNum ++ "/"
           ++ toString reqDen ++ " does not match server "
           ++ toString server.fpsNumerator ++ "/" ++ toString server.fpsDenominator)]) := by
    unfold handleStartSession
    rw [if_neg (by simp)]
    dsimp only
    rw [hval]
  refine ⟨hmain, ?_, ?_, by decide⟩
  · rw [hmain]
    intro m hm
    simp only [List.mem_singleton] at hm
    subst hm
    simp
  · rw [hmain]

theorem startSession_fps_mismatch_witness :
    handleStartSession exampleFps30Request exampleServer60 [0] none
      = ([0], none,
         [OutMsg.errorMsg "Requested frame_rate 30/1 does not match server 60/1"]) :=
  (startSession_fps_mismatch exampleFps30Request exampleServer60 0 []
    (FpsJson.jint 30) 30 1 (by decide) rfl rfl (by decide)).2.2.2
